import Mathlib

/-!
Verification development for the customer-switching analysis pipeline.

The embedding below follows the source modules:
* `modules/brand_filter.py` — the client-side view re-aggregation
  (`filter_dataframe_by_brands`), modelled on lists of flow rows;
* `modules/query_builder.py` — the SQL pipeline (`build_switching_query`,
  `build_cross_category_query`); its CTEs (`cust_item_stats`,
  `primary_identification`, `customer_flow`, `classify`, `source_primary`)
  are modelled as pure functions over transaction lists, with SQL `NULL`
  rendered as `Option`, `FLOAT64` as `ℚ`, and SQL three-valued comparison
  semantics (`NULL >= x` is not satisfied, `NULL = NULL` falls to `ELSE`)
  made explicit;
* `modules/data_processor.py` — the per-entity summary calculator
  (`calculate_brand_summary`), with Python `round` modelled as exact
  round-half-to-even on rationals.

`ROW_NUMBER() OVER (ORDER BY …) = 1` picks a maximal row; on full key ties
SQL leaves the choice unspecified, and the model resolves it
deterministically with `List.argmax` (first maximal element).
-/

namespace EverSwitch

/-- A row of the classified flow table, as consumed by
`filter_dataframe_by_brands` (columns `prod_2024`, `prod_2025`,
`move_type`, `customers` and the optional sales columns, modelled as
always present). -/
structure Row where
  prod_2024 : String
  prod_2025 : String
  move_type : String
  customers : ℕ
  sales_2024 : ℚ
  sales_2025 : ℚ
  total_sales : ℚ
deriving DecidableEq, Repr

/-- Grouping key used by the `groupby(['prod_2024', 'prod_2025', 'move_type'])`
step of the filtered mode. -/
def rowKey (r : Row) : String × String × String :=
  (r.prod_2024, r.prod_2025, r.move_type)

/-- Step 1 of filtered mode: rename `prod_2024` to `'OTHERS'` unless it is a
selected brand or `'NEW_TO_CATEGORY'`. -/
def rewrite2024 (brands : List String) (r : Row) : Row :=
  if ¬ (r.prod_2024 ∈ brands) ∧ r.prod_2024 ≠ "NEW_TO_CATEGORY" then
    { r with prod_2024 := "OTHERS" }
  else r

/-- Step 2 of filtered mode: rename `prod_2025` to `'OTHERS'` unless it is a
selected brand, a special category (`NEW_TO_CATEGORY`, `LOST_FROM_CATEGORY`),
or `'MIXED'`. -/
def rewrite2025 (brands : List String) (r : Row) : Row :=
  if ¬ (r.prod_2025 ∈ brands) ∧
      ¬ (r.prod_2025 ∈ ["NEW_TO_CATEGORY", "LOST_FROM_CATEGORY"]) ∧
      r.prod_2025 ≠ "MIXED" then
    { r with prod_2025 := "OTHERS" }
  else r

/-- Sum of the `customers` column of the rows matching a grouping key. -/
def customersFor (df : List Row) (k : String × String × String) : ℕ :=
  ((df.filter fun r => decide (rowKey r = k)).map (fun r => r.customers)).sum

/-- Sum of one of the sales columns of the rows matching a grouping key. -/
def salesFor (df : List Row) (f : Row → ℚ) (k : String × String × String) : ℚ :=
  ((df.filter fun r => decide (rowKey r = k)).map f).sum

/-- The aggregated row produced for one grouping key by
`groupby(...).agg({'customers': 'sum', ...})`. -/
def aggRowFor (df : List Row) (k : String × String × String) : Row :=
  { prod_2024 := k.1
    prod_2025 := k.2.1
    move_type := k.2.2
    customers := customersFor df k
    sales_2024 := salesFor df (fun r => r.sales_2024) k
    sales_2025 := salesFor df (fun r => r.sales_2025) k
    total_sales := salesFor df (fun r => r.total_sales) k }

/-- Step 3 of filtered mode: group by `(prod_2024, prod_2025, move_type)` and
sum the numeric columns (one output row per distinct key). -/
def groupAgg (df : List Row) : List Row :=
  ((df.map rowKey).dedup).map (aggRowFor df)

/-- Step 4 predicate on a grouping key: keep flows from focused brands or
`NEW_TO_CATEGORY`, and keep `OTHERS` flows only when they go to a focused
brand. -/
def keepKey (brands : List String) (k : String × String × String) : Bool :=
  (decide (k.1 ∈ brands) || decide (k.1 = "NEW_TO_CATEGORY")) ||
    (decide (k.1 = "OTHERS") && decide (k.2.1 ∈ brands))

/-- Step 4 predicate on a row. -/
def keepRow (brands : List String) (r : Row) : Bool :=
  keepKey brands (rowKey r)

/-- `filter_dataframe_by_brands` from `modules/brand_filter.py`: an empty
selection returns the table unchanged; mode `'full'` keeps exactly the rows
whose `prod_2024` is selected; any other mode runs the filtered pipeline
(rename to OTHERS, re-aggregate, drop unwanted OTHERS flows). -/
def filter_dataframe_by_brands (df : List Row) (brands : List String)
    (mode : String) : List Row :=
  if brands = [] then df
  else if mode = "full" then df.filter fun r => decide (r.prod_2024 ∈ brands)
  else
    (groupAgg (df.map fun r => rewrite2025 brands (rewrite2024 brands r))).filter
      (keepRow brands)

/-- Total of the `customers` column of a flow table. -/
def totalCustomers (df : List Row) : ℕ :=
  (df.map (fun r => r.customers)).sum

/-- The rewrite pipeline of steps 1–2 of the filtered mode. -/
def rewriteRow (brands : List String) (r : Row) : Row :=
  rewrite2025 brands (rewrite2024 brands r)

/-- Input used for the brand-filter counterexamples: one flow between two
brands outside the selection. -/
def dfLoss : List Row := [⟨"A", "B", "switched", 5, 0, 0, 0⟩]

/-- Scenario D/E input from the spec: two flows out of `BrandX`. -/
def dfScenario : List Row :=
  [⟨"BrandX", "BrandY", "switched", 5, 0, 0, 0⟩,
   ⟨"BrandX", "BrandZ", "switched", 3, 0, 0, 0⟩]

/-- Inputs used for the C10 counterexample: a `MIXED → MIXED` flow with the
selection `{MIXED}`, and a `B → LOST_FROM_CATEGORY` flow with the selection
`{OTHERS}`. -/
def dfMixedFrom : List Row := [⟨"MIXED", "MIXED", "stayed", 5, 0, 0, 0⟩]

def dfOthersTo : List Row :=
  [⟨"B", "LOST_FROM_CATEGORY", "lost_from_category", 3, 0, 0, 0⟩]

/-- The `classify` CTE's movement-type CASE expression, over the two
nullable primary items (`item_2024`, `item_2025`). SQL three-valued logic:
`NULL = NULL` and `NULL != NULL` are both unknown, so a pair of `NULL`s
falls through to the `ELSE 'unknown'` branch. -/
def classifyMoveType (item_2024 item_2025 : Option String) : String :=
  if item_2024 = none ∧ item_2025 ≠ none then "new_to_category"
  else if item_2024 ≠ none ∧ item_2025 = none then "lost_from_category"
  else
    match item_2024, item_2025 with
    | some a, some b => if a = b then "stayed" else "switched"
    | _, _ => "unknown"

/-- A row of the `cust_item_stats` CTE restricted to one `(Year,
CustomerCode)` partition: per grouping-key value, any barcode, summed
sales, latest transaction date. The share against the partition total is
computed by `statShare` below. -/
structure StatRow where
  item : String
  brand : String
  barcode : String
  sales : ℚ
  lastTx : ℕ
deriving DecidableEq, Repr

/-- Partition total `SUM(SUM(TotalSales)) OVER (PARTITION BY Year,
CustomerCode)`. -/
def statTotal (rows : List StatRow) : ℚ :=
  (rows.map fun r => r.sales).sum

/-- `share_item = SAFE_DIVIDE(sales_item, partition total)`: `NULL` (here
`⊥`) when the total is zero. `WithBot ℚ` orders `NULL` below every number,
matching BigQuery's NULLS-last in a descending sort, and `NULL >= T` is
never satisfied. -/
def statShare (rows : List StatRow) (r : StatRow) : WithBot ℚ :=
  if statTotal rows = 0 then ⊥ else ((r.sales / statTotal rows : ℚ) : WithBot ℚ)

/-- `CASE WHEN share_item >= PRIMARY_THRESHOLD THEN 1 ELSE 0 END`. -/
def flagN (rows : List StatRow) (T : ℚ) (r : StatRow) : ℕ :=
  if (T : WithBot ℚ) ≤ statShare rows r then 1 else 0

/-- The threshold-independent part of the `ROW_NUMBER` ordering:
`share_item DESC, sales_item DESC, last_tx DESC` (lexicographic). -/
def statKey3 (rows : List StatRow) (r : StatRow) : WithBot ℚ ×ₗ (ℚ ×ₗ ℕ) :=
  toLex (statShare rows r, toLex (r.sales, r.lastTx))

/-- The full `ROW_NUMBER` ordering of `primary_identification`:
threshold flag first, then share, sales, recency. -/
def statKey (rows : List StatRow) (T : ℚ) (r : StatRow) :
    ℕ ×ₗ (WithBot ℚ ×ₗ (ℚ ×ₗ ℕ)) :=
  toLex (flagN rows T r, statKey3 rows r)

/-- `QUALIFY ROW_NUMBER() OVER (... ORDER BY ...) = 1`: the row maximal
under `statKey` (ties resolved deterministically to the first maximal
row, refining SQL's unspecified choice). -/
def pickPrimary (rows : List StatRow) (T : ℚ) : Option StatRow :=
  rows.argmax (statKey rows T)

/-- `primary_item`: the winner's grouping-key value when its share reaches
the threshold, else the `'MIXED'` sentinel; `NULL` only when the partition
is empty (no qualifying transactions). -/
def primaryItem (rows : List StatRow) (T : ℚ) : Option String :=
  (pickPrimary rows T).map fun w =>
    if (T : WithBot ℚ) ≤ statShare rows w then w.item else "MIXED"

/-- `primary_barcode`: the winner's barcode when its share reaches the
threshold, else `NULL`. -/
def primaryBarcode (rows : List StatRow) (T : ℚ) : Option String :=
  (pickPrimary rows T).bind fun w =>
    if (T : WithBot ℚ) ≤ statShare rows w then some w.barcode else none

/-- `primary_brand`: the winner's brand when its share reaches the
threshold, else the `'MIXED'` sentinel. -/
def primaryBrand (rows : List StatRow) (T : ℚ) : Option String :=
  (pickPrimary rows T).map fun w =>
    if (T : WithBot ℚ) ≤ statShare rows w then w.brand else "MIXED"

/-- A row of `source_with_share` / `target_with_share` in
`build_cross_category_query`, restricted to one customer: per
(category, subcategory, brand), summed sales. -/
structure CrossRow where
  cat : String
  subcat : String
  brand : String
  sales : ℚ
deriving DecidableEq, Repr

def crossTotal (rows : List CrossRow) : ℚ :=
  (rows.map fun r => r.sales).sum

/-- `share = SAFE_DIVIDE(sales, SUM(sales) OVER (PARTITION BY
CustomerCode))`. -/
def crossShare (rows : List CrossRow) (r : CrossRow) : WithBot ℚ :=
  if crossTotal rows = 0 then ⊥ else ((r.sales / crossTotal rows : ℚ) : WithBot ℚ)

/-- The `ROW_NUMBER` ordering of `source_primary` / `target_primary`:
threshold flag, then sales only (no share or recency tie-break). -/
def crossKey (rows : List CrossRow) (T : ℚ) (r : CrossRow) : ℕ ×ₗ ℚ :=
  toLex (if (T : WithBot ℚ) ≤ crossShare rows r then 1 else 0, r.sales)

/-- The winning row of `source_primary` / `target_primary` for one
customer. -/
def crossPick (rows : List CrossRow) (T : ℚ) : Option CrossRow :=
  rows.argmax (crossKey rows T)

/-- `source_cat` / `target_cat`: the cross-category resolver assigns the
winner's category directly — there is no `MIXED` CASE in
`build_cross_category_query`. -/
def crossPrimaryCat (rows : List CrossRow) (T : ℚ) : Option String :=
  (crossPick rows T).map fun w => w.cat

/-- Transactions of one customer used in the C2 counterexample: spend split
55/45 across two categories, so no share reaches the 0.60 threshold. -/
def exCross : List CrossRow :=
  [⟨"CatA", "SubA", "BrandA", 55⟩, ⟨"CatB", "SubB", "BrandB", 45⟩]

/-- Stats of one customer used in the resolver witnesses: spend split 55/45
across two items. -/
def exStats : List StatRow :=
  [⟨"ItemA", "BrandA", "111", 55, 10⟩, ⟨"ItemB", "BrandB", "222", 45, 11⟩]

/-- The two inclusive date ranges declared at the head of the query
(dates as natural numbers). -/
structure Periods where
  p1s : ℕ
  p1e : ℕ
  p2s : ℕ
  p2e : ℕ
deriving DecidableEq, Repr

/-- A joined transaction row of the `base` CTE (customer, grouping-key
value, brand, barcode, coalesced sales, date), before the `Year` CASE. -/
structure Tx where
  customer : String
  item : String
  brand : String
  barcode : String
  sales : ℚ
  date : ℕ
deriving DecidableEq, Repr

/-- The `Year` CASE of `base`: 2024 when the date falls in period 1, else
2025 when it falls in period 2, else `NULL`. -/
def yearOf (P : Periods) (d : ℕ) : Option ℕ :=
  if P.p1s ≤ d ∧ d ≤ P.p1e then some 2024
  else if P.p2s ≤ d ∧ d ≤ P.p2e then some 2025
  else none

/-- `base` rows surviving `WHERE Year IS NOT NULL` of `cust_item_stats`,
tagged with their year. -/
def yearedTxs (P : Periods) (txs : List Tx) : List (ℕ × Tx) :=
  txs.filterMap fun r => (yearOf P r.date).map fun y => (y, r)

/-- The `cust_item_stats` partition of one `(Year, CustomerCode)`:
`GROUP BY Year, CustomerCode, TargetItem, Brand` with `ANY_VALUE(Barcode)`
(modelled as the first), `SUM(TotalSales)` and `MAX(Date)`. -/
def custStats (P : Periods) (txs : List Tx) (y : ℕ) (c : String) : List StatRow :=
  let grp := (yearedTxs P txs).filter fun p => decide (p.1 = y ∧ p.2.customer = c)
  ((grp.map fun p => (p.2.item, p.2.brand)).dedup).map fun ib =>
    let sub := grp.filter fun p => decide (p.2.item = ib.1 ∧ p.2.brand = ib.2)
    { item := ib.1
      brand := ib.2
      barcode := ((sub.map fun p => p.2.barcode).head?).getD ""
      sales := (sub.map fun p => p.2.sales).sum
      lastTx := (sub.map fun p => p.2.date).foldl max 0 }

/-- One row of the `classify` CTE's grouping key: all grouped columns
(1–6 and `move_type`); `customers = COUNT(*)` is attached by
`classifyTable`. -/
structure FlowRow where
  prod_2024 : String
  prod_2025 : String
  barcode_2024 : Option String
  barcode_2025 : Option String
  brand_2024 : String
  brand_2025 : String
  move_type : String
deriving DecidableEq, Repr

/-- The `customer_flow` row of one customer, with the `classify` CTE's
COALESCEs applied: the per-period primaries (or `NULL` when the customer
has no rows that year) are paired and classified. -/
def flowRowFor (P : Periods) (txs : List Tx) (T : ℚ) (c : String) : FlowRow :=
  { prod_2024 := (primaryItem (custStats P txs 2024 c) T).getD "NEW_TO_CATEGORY"
    prod_2025 := (primaryItem (custStats P txs 2025 c) T).getD "LOST_FROM_CATEGORY"
    barcode_2024 := primaryBarcode (custStats P txs 2024 c) T
    barcode_2025 := primaryBarcode (custStats P txs 2025 c) T
    brand_2024 := (primaryBrand (custStats P txs 2024 c) T).getD "NEW_TO_CATEGORY"
    brand_2025 := (primaryBrand (custStats P txs 2025 c) T).getD "LOST_FROM_CATEGORY"
    move_type := classifyMoveType (primaryItem (custStats P txs 2024 c) T)
      (primaryItem (custStats P txs 2025 c) T) }

/-- The distinct customers of `primary_identification` (equivalently, of the
qualifying rows of `base`), over which `customer_flow` groups. -/
def distinctCustomers (P : Periods) (txs : List Tx) : List String :=
  ((yearedTxs P txs).map fun p => p.2.customer).dedup

/-- The `customer_flow` CTE: one classified row per distinct customer. -/
def customer_flow (P : Periods) (txs : List Tx) (T : ℚ) : List FlowRow :=
  (distinctCustomers P txs).map (flowRowFor P txs T)

/-- The `classify` CTE's `GROUP BY 1,2,3,4,5,6,8` with
`COUNT(*) AS customers`: one output row per distinct grouped tuple, paired
with the number of customer_flow rows in the group. -/
def classifyTable (flows : List FlowRow) : List (FlowRow × ℕ) :=
  flows.dedup.map fun k => (k, flows.count k)

/-- Python's `round` to an integer, modelled exactly on rationals:
round half to even. -/
def roundHalfEven (q : ℚ) : ℤ :=
  if q - ⌊q⌋ < 1/2 then ⌊q⌋
  else if (1:ℚ)/2 < q - ⌊q⌋ then ⌊q⌋ + 1
  else if ⌊q⌋ % 2 = 0 then ⌊q⌋ else ⌊q⌋ + 1

/-- Python's `round(x, 1)`. -/
def round1 (q : ℚ) : ℚ := (roundHalfEven (q * 10) : ℚ) / 10

/-- `round(num / den * 100, 1) if den > 0 else 0`, the percentage pattern
of `calculate_brand_summary`. -/
def pct (num den : ℕ) : ℚ :=
  if 0 < den then round1 ((num : ℚ) / (den : ℚ) * 100) else 0

/-- `stayed`: customers with `prod_2024 = b`, `prod_2025 = b`, move type
`stayed`. -/
def stayedOf (df : List Row) (b : String) : ℕ :=
  ((df.filter fun r =>
    decide (r.prod_2024 = b ∧ r.prod_2025 = b ∧ r.move_type = "stayed")).map
      fun r => r.customers).sum

/-- `switch_out`: customers leaving `b` for another concrete destination. -/
def switchOutOf (df : List Row) (b : String) : ℕ :=
  ((df.filter fun r =>
    decide (r.prod_2024 = b ∧ r.prod_2025 ≠ b ∧
      r.prod_2025 ≠ "LOST_FROM_CATEGORY" ∧ r.move_type = "switched")).map
      fun r => r.customers).sum

/-- `gone`: customers of `b` lost from the category. -/
def goneOf (df : List Row) (b : String) : ℕ :=
  ((df.filter fun r =>
    decide (r.prod_2024 = b ∧ r.prod_2025 = "LOST_FROM_CATEGORY")).map
      fun r => r.customers).sum

/-- `switch_in`: customers arriving at `b` from another concrete origin. -/
def switchInOf (df : List Row) (b : String) : ℕ :=
  ((df.filter fun r =>
    decide (r.prod_2024 ≠ b ∧ r.prod_2024 ≠ "NEW_TO_CATEGORY" ∧
      r.prod_2025 = b ∧ r.move_type = "switched")).map
      fun r => r.customers).sum

/-- `new_customer`: customers new to the category arriving at `b`. -/
def newCustomerOf (df : List Row) (b : String) : ℕ :=
  ((df.filter fun r =>
    decide (r.prod_2024 = "NEW_TO_CATEGORY" ∧ r.prod_2025 = b)).map
      fun r => r.customers).sum

def period1TotalOf (df : List Row) (b : String) : ℕ :=
  stayedOf df b + switchOutOf df b + goneOf df b

def totalInOf (df : List Row) (b : String) : ℕ :=
  stayedOf df b + switchInOf df b + newCustomerOf df b

/-- One row of the `calculate_brand_summary` output. -/
structure SummaryRow where
  brand : String
  period1_total : ℕ
  stayed : ℕ
  switch_out : ℕ
  gone : ℕ
  switch_in : ℕ
  new_customer : ℕ
  period2_total : ℕ
  total_in : ℕ
  total_out : ℕ
  net_movement : ℤ
  stayed_pct : ℚ
  switch_out_pct : ℚ
  gone_pct : ℚ
  switch_in_pct : ℚ
  new_customer_pct : ℚ
deriving DecidableEq, Repr

/-- The summary entry of one brand, as appended by the loop body of
`calculate_brand_summary`: outflow percentages against `period1_total`,
inflow-share percentages against `total_in`, zero on a zero denominator. -/
def summaryRowFor (df : List Row) (b : String) : SummaryRow :=
  { brand := b
    period1_total := period1TotalOf df b
    stayed := stayedOf df b
    switch_out := switchOutOf df b
    gone := goneOf df b
    switch_in := switchInOf df b
    new_customer := newCustomerOf df b
    period2_total := stayedOf df b + switchInOf df b + newCustomerOf df b
    total_in := totalInOf df b
    total_out := switchOutOf df b + goneOf df b
    net_movement := (totalInOf df b : ℤ) - ((switchOutOf df b + goneOf df b : ℕ) : ℤ)
    stayed_pct := pct (stayedOf df b) (period1TotalOf df b)
    switch_out_pct := pct (switchOutOf df b) (period1TotalOf df b)
    gone_pct := pct (goneOf df b) (period1TotalOf df b)
    switch_in_pct := pct (switchInOf df b) (totalInOf df b)
    new_customer_pct := pct (newCustomerOf df b) (totalInOf df b) }

/-- The sorted list of distinct non-sentinel entity values occurring in
either column (`sorted([b for b in all_brands if b not in
special_categories])`). -/
def brandsOf (df : List Row) : List String :=
  List.insertionSort (fun a b => a ≤ b)
    (((df.map fun r => r.prod_2024) ++ df.map fun r => r.prod_2025).dedup.filter
      fun b => decide (¬ (b ∈ ["NEW_TO_CATEGORY", "LOST_FROM_CATEGORY", "MIXED"])))

/-- `calculate_brand_summary` from `modules/data_processor.py`. -/
def calculate_brand_summary (df : List Row) : List SummaryRow :=
  (brandsOf df).map (summaryRowFor df)

/-- Input used for the summary witness: one flow table with a single
`stayed` row. -/
def dfStayed : List Row := [⟨"BrandA", "BrandA", "stayed", 3, 0, 0, 0⟩]

lemma filter_of_map {α β : Type} (f : α → β) (p : β → Bool) (l : List α) :
    (l.map f).filter p = (l.filter fun a => p (f a)).map f := by
  induction l with
  | nil => rfl
  | cons a tl ih =>
    by_cases h : p (f a)
    · simp [List.filter_cons, h, ih]
    · simp [List.filter_cons, h, ih]

lemma sum_map_add {κ : Type} (l : List κ) (f g : κ → ℕ) :
    (l.map fun k => f k + g k).sum = (l.map f).sum + (l.map g).sum := by
  induction l with
  | nil => rfl
  | cons a tl ih => simp [ih]; omega

lemma sum_map_ite {κ : Type} [DecidableEq κ] (a : κ) (v : ℕ) :
    ∀ l : List κ, l.Nodup →
      (l.map fun k => if a = k then v else 0).sum = if a ∈ l then v else 0 := by
  intro l hl
  induction l with
  | nil => simp
  | cons b tl ih =>
    obtain ⟨hb, htl⟩ := List.nodup_cons.mp hl
    by_cases hab : a = b
    · subst hab
      have h0 : (tl.map fun k => if a = k then v else 0).sum = 0 := by
        rw [ih htl, if_neg hb]
      simp [h0]
    · simp [hab, ih htl, Ne.symm hab]

lemma rewrite2024_prod_2025 (S : List String) (r : Row) :
    (rewrite2024 S r).prod_2025 = r.prod_2025 := by
  unfold rewrite2024; split <;> rfl

lemma rewrite2024_customers (S : List String) (r : Row) :
    (rewrite2024 S r).customers = r.customers := by
  unfold rewrite2024; split <;> rfl

lemma rewrite2025_prod_2024 (S : List String) (r : Row) :
    (rewrite2025 S r).prod_2024 = r.prod_2024 := by
  unfold rewrite2025; split <;> rfl

lemma rewrite2025_customers (S : List String) (r : Row) :
    (rewrite2025 S r).customers = r.customers := by
  unfold rewrite2025; split <;> rfl

lemma rewriteRow_customers (S : List String) (r : Row) :
    (rewriteRow S r).customers = r.customers := by
  rw [rewriteRow, rewrite2025_customers, rewrite2024_customers]

lemma rewrite2024_mem (S : List String) (r : Row) :
    (rewrite2024 S r).prod_2024 ∈ S ∨ (rewrite2024 S r).prod_2024 = "NEW_TO_CATEGORY" ∨
      (rewrite2024 S r).prod_2024 = "OTHERS" := by
  unfold rewrite2024
  split
  · right; right; rfl
  · rename_i h
    rcases not_and_or.mp h with h1 | h2
    · exact Or.inl (not_not.mp h1)
    · exact Or.inr (Or.inl (not_not.mp h2))

lemma rewrite2025_mem (S : List String) (r : Row) :
    (rewrite2025 S r).prod_2025 ∈ S ∨ (rewrite2025 S r).prod_2025 = "NEW_TO_CATEGORY" ∨
      (rewrite2025 S r).prod_2025 = "LOST_FROM_CATEGORY" ∨
      (rewrite2025 S r).prod_2025 = "MIXED" ∨ (rewrite2025 S r).prod_2025 = "OTHERS" := by
  unfold rewrite2025
  split
  · right; right; right; right; rfl
  · rename_i h
    rcases not_and_or.mp h with h1 | h
    · exact Or.inl (not_not.mp h1)
    · rcases not_and_or.mp h with h2 | h3
      · have h2' := not_not.mp h2
        simp only [List.mem_cons, List.not_mem_nil, or_false] at h2'
        rcases h2' with h | h
        · exact Or.inr (Or.inl h)
        · exact Or.inr (Or.inr (Or.inl h))
      · exact Or.inr (Or.inr (Or.inr (Or.inl (not_not.mp h3))))

lemma rewrite2024_fix (S : List String) (r : Row)
    (h : r.prod_2024 ∈ S ∨ r.prod_2024 = "NEW_TO_CATEGORY" ∨ r.prod_2024 = "OTHERS") :
    rewrite2024 S r = r := by
  unfold rewrite2024
  split
  · rename_i hc
    rcases h with h | h | h
    · exact absurd h hc.1
    · exact absurd h hc.2
    · rw [← h]
  · rfl

lemma rewrite2025_fix (S : List String) (r : Row)
    (h : r.prod_2025 ∈ S ∨ r.prod_2025 = "NEW_TO_CATEGORY" ∨
      r.prod_2025 = "LOST_FROM_CATEGORY" ∨ r.prod_2025 = "MIXED" ∨
      r.prod_2025 = "OTHERS") :
    rewrite2025 S r = r := by
  unfold rewrite2025
  split
  · rename_i hc
    rcases h with h | h | h | h | h
    · exact absurd h hc.1
    · exact absurd (by simp [h]) hc.2.1
    · exact absurd (by simp [h]) hc.2.1
    · exact absurd h hc.2.2
    · rw [← h]
  · rfl

lemma rowKey_aggRowFor (df : List Row) (k : String × String × String) :
    rowKey (aggRowFor df k) = k := rfl

lemma map_rowKey_groupAgg (df : List Row) :
    (groupAgg df).map rowKey = (df.map rowKey).dedup := by
  unfold groupAgg
  rw [List.map_map]
  exact List.map_id ((df.map rowKey).dedup)

lemma customersFor_cons (r : Row) (tl : List Row) (k : String × String × String) :
    customersFor (r :: tl) k =
      (if rowKey r = k then r.customers else 0) + customersFor tl k := by
  unfold customersFor
  rw [List.filter_cons]
  by_cases h : rowKey r = k
  · simp [h]
  · simp [h]

lemma sum_groups_aux (p : String × String × String → Bool) :
    ∀ (df : List Row) (L : List (String × String × String)), L.Nodup →
      (∀ r ∈ df, rowKey r ∈ L) →
      ((L.filter p).map (customersFor df)).sum
        = ((df.filter fun r => p (rowKey r)).map fun r => r.customers).sum := by
  intro df
  induction df with
  | nil =>
    intro L _ _
    have hz : customersFor ([] : List Row) = fun _ => 0 := rfl
    rw [hz]
    simp
  | cons r tl ih =>
    intro L hN hcov
    have hstep :
        ((L.filter p).map (customersFor (r :: tl))).sum
          = ((L.filter p).map fun k =>
              (if rowKey r = k then r.customers else 0) + customersFor tl k).sum := by
      apply congrArg
      exact List.map_congr_left fun k _ => customersFor_cons r tl k
    rw [hstep, sum_map_add, sum_map_ite (rowKey r) r.customers (L.filter p)
      (hN.sublist (List.filter_sublist L))]
    have hcovtl : ∀ x ∈ tl, rowKey x ∈ L := fun x hx =>
      hcov x (List.mem_cons_of_mem r hx)
    rw [ih L hN hcovtl, List.filter_cons]
    have hkey : rowKey r ∈ L.filter p ↔ p (rowKey r) := by
      rw [List.mem_filter]
      exact ⟨fun h => h.2, fun h => ⟨hcov r (List.mem_cons_self r tl), h⟩⟩
    by_cases hp : p (rowKey r)
    · rw [if_pos (hkey.mpr hp), if_pos hp]
      simp
    · rw [if_neg fun h => hp (hkey.mp h), if_neg hp]
      simp

lemma sum_filter_groupAgg (df : List Row) (p : String × String × String → Bool) :
    (((groupAgg df).filter fun r => p (rowKey r)).map fun r => r.customers).sum
      = ((df.filter fun r => p (rowKey r)).map fun r => r.customers).sum := by
  unfold groupAgg
  rw [filter_of_map (aggRowFor df) (fun r => p (rowKey r)) ((df.map rowKey).dedup)]
  rw [List.map_map]
  have hfun : ((fun r : Row => r.customers) ∘ aggRowFor df) = customersFor df := rfl
  rw [hfun]
  have hpred : ((df.map rowKey).dedup.filter fun a => p (rowKey (aggRowFor df a)))
      = (df.map rowKey).dedup.filter p := by
    apply List.filter_congr
    intro k _
    rw [rowKey_aggRowFor]
  rw [hpred]
  exact sum_groups_aux p df ((df.map rowKey).dedup) (List.nodup_dedup _)
    (fun r hr => List.mem_dedup.mpr (List.mem_map_of_mem rowKey hr))

lemma filter_key_eq_singleton :
    ∀ df : List Row, (df.map rowKey).Nodup → ∀ r ∈ df,
      df.filter (fun x => decide (rowKey x = rowKey r)) = [r] := by
  intro df
  induction df with
  | nil => intro _ r hr; cases hr
  | cons a tl ih =>
    intro hN r hr
    rw [List.map_cons] at hN
    obtain ⟨ha, htl⟩ := List.nodup_cons.mp hN
    rcases List.mem_cons.mp hr with rfl | hrtl
    · rw [List.filter_cons, if_pos (by simp)]
      have : tl.filter (fun x => decide (rowKey x = rowKey r)) = [] := by
        rw [List.filter_eq_nil_iff]
        intro x hx
        simp only [decide_eq_true_eq]
        intro hcontra
        exact ha (hcontra ▸ List.mem_map_of_mem rowKey hx)
      rw [this]
    · have hne : ¬ (rowKey a = rowKey r) := by
        intro hcontra
        exact ha (hcontra ▸ List.mem_map_of_mem rowKey hrtl)
      rw [List.filter_cons, if_neg (by simpa using hne)]
      exact ih htl r hrtl

lemma aggRowFor_key_self (df : List Row) (hN : (df.map rowKey).Nodup)
    (r : Row) (hr : r ∈ df) : aggRowFor df (rowKey r) = r := by
  unfold aggRowFor customersFor salesFor
  rw [filter_key_eq_singleton df hN r hr]
  cases r
  simp [rowKey]

lemma groupAgg_eq_self (df : List Row) (hN : (df.map rowKey).Nodup) :
    groupAgg df = df := by
  unfold groupAgg
  rw [List.dedup_eq_self.mpr hN, List.map_map]
  have : df.map (aggRowFor df ∘ rowKey) = df.map id :=
    List.map_congr_left fun r hr => aggRowFor_key_self df hN r hr
  rw [this, List.map_id]

lemma mem_groupAgg (df : List Row) (r : Row) (hr : r ∈ groupAgg df) :
    ∃ a ∈ df, rowKey a = rowKey r := by
  unfold groupAgg at hr
  obtain ⟨k, hk, hak⟩ := List.mem_map.mp hr
  obtain ⟨a, ha, hka⟩ := List.mem_map.mp (List.mem_dedup.mp hk)
  exact ⟨a, ha, by rw [hka, ← hak, rowKey_aggRowFor]⟩

lemma groupAgg_rw_prod_2024 (S : List String) (df : List Row) (r : Row)
    (hr : r ∈ groupAgg (df.map (rewriteRow S))) :
    r.prod_2024 ∈ S ∨ r.prod_2024 = "NEW_TO_CATEGORY" ∨ r.prod_2024 = "OTHERS" := by
  obtain ⟨a, ha, hka⟩ := mem_groupAgg _ r hr
  obtain ⟨b, _, hba⟩ := List.mem_map.mp ha
  have h24 : r.prod_2024 = (rewrite2024 S b).prod_2024 := by
    have : a.prod_2024 = r.prod_2024 := congrArg Prod.fst hka
    rw [← this, ← hba, rewriteRow, rewrite2025_prod_2024]
  rw [h24]
  exact rewrite2024_mem S b

lemma groupAgg_rw_prod_2025 (S : List String) (df : List Row) (r : Row)
    (hr : r ∈ groupAgg (df.map (rewriteRow S))) :
    r.prod_2025 ∈ S ∨ r.prod_2025 = "NEW_TO_CATEGORY" ∨
      r.prod_2025 = "LOST_FROM_CATEGORY" ∨ r.prod_2025 = "MIXED" ∨
      r.prod_2025 = "OTHERS" := by
  obtain ⟨a, ha, hka⟩ := mem_groupAgg _ r hr
  obtain ⟨b, _, hba⟩ := List.mem_map.mp ha
  have h25 : r.prod_2025 = (rewrite2025 S (rewrite2024 S b)).prod_2025 := by
    have : a.prod_2025 = r.prod_2025 := congrArg (fun k => k.2.1) hka
    rw [← this, ← hba, rewriteRow]
  rw [h25]
  exact rewrite2025_mem S (rewrite2024 S b)

lemma rewriteRow_fix_of_mem_groupAgg (S : List String) (df : List Row) (r : Row)
    (hr : r ∈ groupAgg (df.map (rewriteRow S))) : rewriteRow S r = r := by
  have h24 := groupAgg_rw_prod_2024 S df r hr
  have h25 := groupAgg_rw_prod_2025 S df r hr
  have hfix24 : rewrite2024 S r = r := by
    apply rewrite2024_fix
    rcases h24 with h | h | h
    · exact Or.inl h
    · exact Or.inr (Or.inl h)
    · exact Or.inr (Or.inr h)
  rw [rewriteRow, hfix24]
  exact rewrite2025_fix S r h25

lemma groupAgg_keys_nodup (df : List Row) : ((groupAgg df).map rowKey).Nodup := by
  rw [map_rowKey_groupAgg]
  exact List.nodup_dedup _

lemma filtered_mode_eq (df : List Row) (S : List String) (hS : S ≠ []) :
    filter_dataframe_by_brands df S "filtered"
      = (groupAgg (df.map (rewriteRow S))).filter (keepRow S) := by
  unfold filter_dataframe_by_brands
  rw [if_neg hS, if_neg (by decide : ¬ (("filtered" : String) = "full"))]
  rfl

/-- C1 counterexample: with the non-empty selection `{X}` and input
`[(A, B, switched, 5)]`, the filtered transform rewrites the row to
`(OTHERS, OTHERS)` and then drops it, so the output total is 0 while the
input total is 5 — the total customer count is not conserved. -/
theorem filtered_sum_not_conserved :
    ¬ (["X"] = ([] : List String)) ∧
    totalCustomers (filter_dataframe_by_brands dfLoss ["X"] "filtered") = 0 ∧
    totalCustomers dfLoss = 5 ∧
    totalCustomers (filter_dataframe_by_brands dfLoss ["X"] "filtered")
      ≠ totalCustomers dfLoss := by decide

/-- C1 (amended): for every non-empty selection `S`, the filtered transform
conserves the total customer count of exactly the input rows it keeps —
those whose rewritten `prod_2024` is selected or `NEW_TO_CATEGORY`, or is
`OTHERS` with a selected rewritten `prod_2025`; rows flowing from outside
the selection to outside the selection are dropped, so the overall total is
not conserved in general. -/
theorem filtered_sum_kept_rows (df : List Row) (S : List String) (hS : S ≠ []) :
    totalCustomers (filter_dataframe_by_brands df S "filtered")
      = totalCustomers (df.filter fun r => keepRow S (rewriteRow S r)) := by
  rw [filtered_mode_eq df S hS]
  unfold totalCustomers
  have h1 : (groupAgg (df.map (rewriteRow S))).filter (keepRow S)
      = (groupAgg (df.map (rewriteRow S))).filter fun r => keepKey S (rowKey r) := rfl
  rw [h1, sum_filter_groupAgg (df.map (rewriteRow S)) (keepKey S),
    filter_of_map (rewriteRow S) (fun r => keepKey S (rowKey r)) df, List.map_map]
  have h2 : ((fun r : Row => r.customers) ∘ rewriteRow S) = fun r : Row => r.customers :=
    funext fun r => rewriteRow_customers S r
  rw [h2]
  rfl

theorem filtered_sum_kept_rows_witness :
    (["BrandX"] : List String) ≠ [] ∧
    totalCustomers (filter_dataframe_by_brands dfScenario ["BrandX"] "filtered")
      = totalCustomers (dfScenario.filter fun r =>
          keepRow ["BrandX"] (rewriteRow ["BrandX"] r)) :=
  ⟨by decide, filtered_sum_kept_rows dfScenario ["BrandX"] (by decide)⟩

/-- C5: applying the filtered-view transform twice with the same selection
set produces exactly the same table as applying it once (for the empty
selection both applications return the input unchanged). -/
theorem filtered_transform_idempotent (df : List Row) (S : List String) :
    filter_dataframe_by_brands (filter_dataframe_by_brands df S "filtered") S "filtered"
      = filter_dataframe_by_brands df S "filtered" := by
  by_cases hS : S = []
  · unfold filter_dataframe_by_brands
    rw [if_pos hS, if_pos hS]
  · rw [filtered_mode_eq df S hS,
      filtered_mode_eq ((groupAgg (df.map (rewriteRow S))).filter (keepRow S)) S hS]
    have hfix : ((groupAgg (df.map (rewriteRow S))).filter (keepRow S)).map (rewriteRow S)
        = (groupAgg (df.map (rewriteRow S))).filter (keepRow S) := by
      have h1 : ∀ r ∈ (groupAgg (df.map (rewriteRow S))).filter (keepRow S),
          rewriteRow S r = r := fun r hr =>
        rewriteRow_fix_of_mem_groupAgg S df r (List.mem_of_mem_filter hr)
      exact (List.map_congr_left h1).trans (List.map_id' _)
    rw [hfix]
    have hnodup : ((((groupAgg (df.map (rewriteRow S))).filter (keepRow S))).map rowKey).Nodup :=
      (groupAgg_keys_nodup (df.map (rewriteRow S))).sublist
        ((List.filter_sublist _).map rowKey)
    rw [groupAgg_eq_self _ hnodup]
    apply List.filter_eq_self.mpr
    intro r hr
    exact (List.mem_filter.mp hr).2

/-- C8: with a non-empty selection, the full view returns exactly the input
rows whose `prod_2024` is selected — a sublist of the input, every field
unchanged, no merging or rewriting. -/
theorem full_view_rows (df : List Row) (S : List String) (hS : S ≠ []) :
    filter_dataframe_by_brands df S "full"
        = df.filter (fun r => decide (r.prod_2024 ∈ S))
    ∧ List.Sublist (filter_dataframe_by_brands df S "full") df
    ∧ ∀ r : Row, r ∈ filter_dataframe_by_brands df S "full" ↔ r ∈ df ∧ r.prod_2024 ∈ S := by
  have he : filter_dataframe_by_brands df S "full"
      = df.filter fun r => decide (r.prod_2024 ∈ S) := by
    unfold filter_dataframe_by_brands
    rw [if_neg hS, if_pos rfl]
  refine ⟨he, ?_, ?_⟩
  · rw [he]
    exact List.filter_sublist df
  · intro r
    rw [he, List.mem_filter, decide_eq_true_eq]

theorem full_view_rows_witness :
    (["BrandX"] : List String) ≠ [] ∧
    (filter_dataframe_by_brands dfScenario ["BrandX"] "full"
        = dfScenario.filter (fun r => decide (r.prod_2024 ∈ ["BrandX"]))
      ∧ List.Sublist (filter_dataframe_by_brands dfScenario ["BrandX"] "full") dfScenario
      ∧ ∀ r : Row, r ∈ filter_dataframe_by_brands dfScenario ["BrandX"] "full"
          ↔ r ∈ dfScenario ∧ r.prod_2024 ∈ ["BrandX"]) :=
  ⟨by decide, full_view_rows dfScenario ["BrandX"] (by decide)⟩

/-- C10 counterexample: when the selection itself contains a sentinel the
claim fails — with `S = {MIXED}` a `MIXED` value survives as `prod_2024`,
and with `S = {OTHERS}` an aggregated row with `prod_2024 = OTHERS` is kept
although its `prod_2025` is not in `S`. -/
theorem others_rewrite_counterexample :
    (∃ r ∈ filter_dataframe_by_brands dfMixedFrom ["MIXED"] "filtered",
        r.prod_2024 = "MIXED")
    ∧ (∃ r ∈ filter_dataframe_by_brands dfOthersTo ["OTHERS"] "filtered",
        r.prod_2024 = "OTHERS" ∧ ¬ (r.prod_2025 ∈ ["OTHERS"])) := by decide

/-- C10 (amended): for a non-empty selection `S` containing neither the
literal `OTHERS` nor the literal `MIXED`: every `prod_2024` outside `S` and
different from `NEW_TO_CATEGORY` (`MIXED` included) is rewritten to
`OTHERS` rather than dropped (the rewrite stage preserves the row count);
after aggregation a row with `prod_2024 = OTHERS` is kept exactly when its
`prod_2025` is in `S`; and `MIXED` never survives as a `prod_2024` value. -/
theorem others_rewrite_amended (df : List Row) (S : List String) (hS : S ≠ [])
    (hO : "OTHERS" ∉ S) (hM : "MIXED" ∉ S) :
    (∀ r ∈ df, r.prod_2024 ∉ S → r.prod_2024 ≠ "NEW_TO_CATEGORY" →
      (rewrite2024 S r).prod_2024 = "OTHERS")
    ∧ (df.map (rewriteRow S)).length = df.length
    ∧ (∀ r ∈ groupAgg (df.map (rewriteRow S)), r.prod_2024 = "OTHERS" →
        (r ∈ filter_dataframe_by_brands df S "filtered" ↔ r.prod_2025 ∈ S))
    ∧ (∀ r ∈ filter_dataframe_by_brands df S "filtered", r.prod_2024 ≠ "MIXED") := by
  refine ⟨?_, List.length_map df _, ?_, ?_⟩
  · intro r _ h1 h2
    unfold rewrite2024
    rw [if_pos ⟨h1, h2⟩]
  · intro r hr hOth
    rw [filtered_mode_eq df S hS, List.mem_filter]
    constructor
    · rintro ⟨_, hkeep⟩
      simp only [keepRow, keepKey, rowKey, hOth, Bool.or_eq_true, Bool.and_eq_true,
        decide_eq_true_eq] at hkeep
      rcases hkeep with (h | h) | ⟨_, h⟩
      · exact absurd h hO
      · exact absurd h (by decide)
      · exact h
    · intro h25
      refine ⟨hr, ?_⟩
      simp only [keepRow, keepKey, rowKey, hOth, Bool.or_eq_true, Bool.and_eq_true,
        decide_eq_true_eq]
      refine Or.inr ⟨?_, h25⟩
      trivial
  · intro r hr
    rw [filtered_mode_eq df S hS] at hr
    have h24 := groupAgg_rw_prod_2024 S df r (List.mem_of_mem_filter hr)
    rcases h24 with h | h | h
    · intro hcontra
      rw [hcontra] at h
      exact hM h
    · rw [h]
      decide
    · rw [h]
      decide

/-- C3: on every reachable profile pair (at least one period non-null) the
classifier is total and mutually exclusive over the four movement types,
assigned first-match (null/non-null cases first, then equality), and never
yields `unknown`. Determinism is immediate: the classifier is a pure
function of the pair. -/
theorem classify_total_exclusive (item_2024 item_2025 : Option String)
    (h : item_2024 ≠ none ∨ item_2025 ≠ none) :
    (classifyMoveType item_2024 item_2025 = "new_to_category" ∨
      classifyMoveType item_2024 item_2025 = "lost_from_category" ∨
      classifyMoveType item_2024 item_2025 = "stayed" ∨
      classifyMoveType item_2024 item_2025 = "switched")
    ∧ classifyMoveType item_2024 item_2025 ≠ "unknown"
    ∧ (classifyMoveType item_2024 item_2025 = "new_to_category" ↔
        item_2024 = none ∧ item_2025 ≠ none)
    ∧ (classifyMoveType item_2024 item_2025 = "lost_from_category" ↔
        item_2024 ≠ none ∧ item_2025 = none)
    ∧ (classifyMoveType item_2024 item_2025 = "stayed" ↔
        ∃ a, item_2024 = some a ∧ item_2025 = some a)
    ∧ (classifyMoveType item_2024 item_2025 = "switched" ↔
        ∃ a b, item_2024 = some a ∧ item_2025 = some b ∧ a ≠ b) := by
  cases item_2024 with
  | none =>
    cases item_2025 with
    | none => simp at h
    | some b => simp [classifyMoveType]
  | some a =>
    cases item_2025 with
    | none => simp [classifyMoveType]
    | some b =>
      by_cases hab : a = b
      · subst hab
        simp [classifyMoveType]
      · simp [classifyMoveType, hab]
        exact fun hc => hab hc.symm

theorem classify_total_exclusive_witness :
    ((some "BrandX" : Option String) ≠ none ∨ (some "BrandY" : Option String) ≠ none) ∧
    ((classifyMoveType (some "BrandX") (some "BrandY") = "new_to_category" ∨
      classifyMoveType (some "BrandX") (some "BrandY") = "lost_from_category" ∨
      classifyMoveType (some "BrandX") (some "BrandY") = "stayed" ∨
      classifyMoveType (some "BrandX") (some "BrandY") = "switched")
    ∧ classifyMoveType (some "BrandX") (some "BrandY") ≠ "unknown"
    ∧ (classifyMoveType (some "BrandX") (some "BrandY") = "new_to_category" ↔
        (some "BrandX" : Option String) = none ∧ (some "BrandY" : Option String) ≠ none)
    ∧ (classifyMoveType (some "BrandX") (some "BrandY") = "lost_from_category" ↔
        (some "BrandX" : Option String) ≠ none ∧ (some "BrandY" : Option String) = none)
    ∧ (classifyMoveType (some "BrandX") (some "BrandY") = "stayed" ↔
        ∃ a, (some "BrandX" : Option String) = some a ∧ (some "BrandY" : Option String) = some a)
    ∧ (classifyMoveType (some "BrandX") (some "BrandY") = "switched" ↔
        ∃ a b, (some "BrandX" : Option String) = some a ∧
          (some "BrandY" : Option String) = some b ∧ a ≠ b)) :=
  ⟨Or.inl (by decide),
    classify_total_exclusive (some "BrandX") (some "BrandY") (Or.inl (by decide))⟩

/-- C6 counterexample: a pair whose primaries are both the `MIXED` sentinel
(both non-null, so "at least one is MIXED" holds) classifies as `stayed`,
not `switched` — the spec's Scenario B agrees with the code here. -/
theorem mixed_pair_stays :
    classifyMoveType (some "MIXED") (some "MIXED") = "stayed" ∧
    classifyMoveType (some "MIXED") (some "MIXED") ≠ "switched" := by decide

/-- C6 (amended): when both primaries are non-null, at least one of them is
the `MIXED` sentinel, and the two differ, the movement type is
`switched`. -/
theorem mixed_pair_switched (a b : String) (_hm : a = "MIXED" ∨ b = "MIXED")
    (hab : a ≠ b) : classifyMoveType (some a) (some b) = "switched" := by
  simp [classifyMoveType, hab]

theorem mixed_pair_switched_witness :
    (("MIXED" : String) = "MIXED" ∨ ("BrandX" : String) = "MIXED") ∧
    ("MIXED" : String) ≠ "BrandX" ∧
    classifyMoveType (some "MIXED") (some "BrandX") = "switched" :=
  ⟨Or.inl rfl, by decide,
    mixed_pair_switched "MIXED" "BrandX" (Or.inl rfl) (by decide)⟩

lemma argmax_congr {α β γ : Type} [Preorder β] [Preorder γ]
    [@DecidableRel β (· < ·)] [@DecidableRel γ (· < ·)]
    (f : α → β) (g : α → γ) (h : ∀ a b, f a < f b ↔ g a < g b) :
    ∀ l : List α, l.argmax f = l.argmax g := by
  have hstep : ∀ (o : Option α) (a : α),
      List.argAux (fun b c => f c < f b) o a
        = List.argAux (fun b c => g c < g b) o a := by
    intro o a
    cases o with
    | none => rfl
    | some c =>
      simp only [List.argAux]
      exact if_congr (h c a) rfl rfl
  suffices hgen : ∀ (l : List α) (o : Option α),
      l.foldl (List.argAux fun b c => f c < f b) o
        = l.foldl (List.argAux fun b c => g c < g b) o from
    fun l => hgen l none
  intro l
  induction l with
  | nil => intro o; rfl
  | cons a tl ih =>
    intro o
    rw [List.foldl_cons, List.foldl_cons, hstep, ih]

lemma flagN_le_of_share_le (rows : List StatRow) (T : ℚ) (a b : StatRow)
    (h : statShare rows a ≤ statShare rows b) :
    flagN rows T a ≤ flagN rows T b := by
  unfold flagN
  by_cases ha : (T : WithBot ℚ) ≤ statShare rows a
  · rw [if_pos ha, if_pos (ha.trans h)]
  · rw [if_neg ha]
    exact Nat.zero_le _

lemma statKey3_lt_iff (rows : List StatRow) (a b : StatRow) :
    statKey3 rows a < statKey3 rows b ↔
      statShare rows a < statShare rows b ∨
        (statShare rows a = statShare rows b ∧
          toLex (a.sales, a.lastTx) < toLex (b.sales, b.lastTx)) := by
  rw [statKey3, statKey3, Prod.Lex.lt_iff]

/-- The threshold flag is a monotone function of the share, so the full
`ROW_NUMBER` ordering (flag, share, sales, recency) induces exactly the
threshold-independent order (share, sales, recency). -/
lemma statKey_lt_iff (rows : List StatRow) (T : ℚ) (a b : StatRow) :
    statKey rows T a < statKey rows T b ↔ statKey3 rows a < statKey3 rows b := by
  rw [statKey, statKey, Prod.Lex.lt_iff]
  constructor
  · rintro (hf | ⟨_, h3⟩)
    · by_cases ha : (T : WithBot ℚ) ≤ statShare rows a <;>
        by_cases hb : (T : WithBot ℚ) ≤ statShare rows b <;>
        simp [flagN, ha, hb] at hf
      rw [statKey3_lt_iff]
      exact Or.inl (lt_of_lt_of_le (not_le.mp ha) hb)
    · exact h3
  · intro h3
    rcases (statKey3_lt_iff rows a b).mp h3 with hs | ⟨hs, _⟩
    · rcases lt_or_eq_of_le (flagN_le_of_share_le rows T a b hs.le) with hf | hf
      · exact Or.inl hf
      · exact Or.inr ⟨hf, h3⟩
    · refine Or.inr ⟨?_, h3⟩
      unfold flagN
      rw [hs]

/-- The winning row of `primary_identification` does not depend on the
threshold. -/
lemma pickPrimary_threshold_invariant (rows : List StatRow) (T1 T2 : ℚ) :
    pickPrimary rows T1 = pickPrimary rows T2 :=
  argmax_congr (statKey rows T1) (statKey rows T2)
    (fun a b => (statKey_lt_iff rows T1 a b).trans
      (statKey_lt_iff rows T2 a b).symm) rows

/-- C7: for a fixed transaction set, if the resolver yields `MIXED` at
threshold `T1` then it yields `MIXED` at every threshold `T2 ≥ T1`:
raising the threshold never moves a customer from `MIXED` back to a
concrete primary item. -/
theorem threshold_monotone_mixed (rows : List StatRow) (T1 T2 : ℚ) (hT : T1 ≤ T2)
    (h : primaryItem rows T1 = some "MIXED") :
    primaryItem rows T2 = some "MIXED" := by
  rw [primaryItem] at h ⊢
  rw [← pickPrimary_threshold_invariant rows T1 T2]
  cases hp : pickPrimary rows T1 with
  | none => rw [hp] at h; cases h
  | some w =>
    rw [hp] at h
    simp only [Option.map_some'] at h ⊢
    by_cases h1 : (T1 : WithBot ℚ) ≤ statShare rows w
    · have hw : w.item = "MIXED" := by
        rw [if_pos h1] at h
        exact Option.some_inj.mp h
      by_cases h2 : (T2 : WithBot ℚ) ≤ statShare rows w
      · rw [if_pos h2, hw]
      · rw [if_neg h2]
    · have h2 : ¬ ((T2 : WithBot ℚ) ≤ statShare rows w) := fun hc =>
        h1 (le_trans (WithBot.coe_le_coe.mpr hT) hc)
      rw [if_neg h2]

/-- C2 (amended): in the standard grouping mode (`build_switching_query`),
for a customer with at least one qualifying row the resolver never yields
`NULL`; it yields `MIXED` exactly when no grouping-key value reaches the
threshold, and otherwise assigns the item of a winning row whose share
reaches the threshold and which is maximal in the (share, sales, recency)
order. In the cross-category mode (`build_cross_category_query`) the
resolver instead always assigns the winning row's category — there is no
`MIXED` branch, regardless of the winner's share. -/
theorem resolver_assignment (rows : List StatRow) (crows : List CrossRow) (T : ℚ)
    (hrows : rows ≠ []) (hcrows : crows ≠ []) :
    ((primaryItem rows T).isSome = true
      ∧ ((∀ r ∈ rows, ¬ ((T : WithBot ℚ) ≤ statShare rows r)) →
          primaryItem rows T = some "MIXED")
      ∧ ((∃ r ∈ rows, (T : WithBot ℚ) ≤ statShare rows r) →
          ∃ w ∈ rows, (T : WithBot ℚ) ≤ statShare rows w ∧
            primaryItem rows T = some w.item ∧
            ∀ r ∈ rows, statKey3 rows r ≤ statKey3 rows w))
    ∧ (∃ w ∈ crows, crossPrimaryCat crows T = some w.cat ∧
        ∀ r ∈ crows, crossKey crows T r ≤ crossKey crows T w) := by
  constructor
  · cases hp : pickPrimary rows T with
    | none => exact absurd (List.argmax_eq_none.mp hp) hrows
    | some w =>
      have hmem : w ∈ pickPrimary rows T := Option.mem_def.mpr hp
      refine ⟨?_, ?_, ?_⟩
      · rw [primaryItem, hp]
        rfl
      · intro hall
        rw [primaryItem, hp, Option.map_some',
          if_neg (hall w (List.argmax_mem hmem))]
      · rintro ⟨q, hq, hqT⟩
        have hwq : ¬ (statKey rows T w < statKey rows T q) :=
          List.not_lt_of_mem_argmax hq hmem
        have hwT : (T : WithBot ℚ) ≤ statShare rows w := by
          by_contra hz
          apply hwq
          rw [statKey, statKey, Prod.Lex.lt_iff]
          left
          simp [flagN, hz, hqT]
        refine ⟨w, List.argmax_mem hmem, hwT, ?_, ?_⟩
        · rw [primaryItem, hp, Option.map_some', if_pos hwT]
        · intro r hr
          have hle := List.le_of_mem_argmax hr hmem
          apply le_of_not_lt
          intro hlt
          exact absurd ((statKey_lt_iff rows T w r).mpr hlt) (not_lt.mpr hle)
  · cases hcp : crossPick crows T with
    | none => exact absurd (List.argmax_eq_none.mp hcp) hcrows
    | some w =>
      have hmem : w ∈ crossPick crows T := Option.mem_def.mpr hcp
      refine ⟨w, List.argmax_mem hmem, ?_, fun r hr => List.le_of_mem_argmax hr hmem⟩
      rw [crossPrimaryCat, hcp, Option.map_some']

theorem resolver_assignment_witness :
    (exStats ≠ [] ∧ exCross ≠ []) ∧
    (((primaryItem exStats (6/10)).isSome = true
      ∧ ((∀ r ∈ exStats, ¬ (((6/10 : ℚ) : WithBot ℚ) ≤ statShare exStats r)) →
          primaryItem exStats (6/10) = some "MIXED")
      ∧ ((∃ r ∈ exStats, ((6/10 : ℚ) : WithBot ℚ) ≤ statShare exStats r) →
          ∃ w ∈ exStats, ((6/10 : ℚ) : WithBot ℚ) ≤ statShare exStats w ∧
            primaryItem exStats (6/10) = some w.item ∧
            ∀ r ∈ exStats, statKey3 exStats r ≤ statKey3 exStats w))
    ∧ (∃ w ∈ exCross, crossPrimaryCat exCross (6/10) = some w.cat ∧
        ∀ r ∈ exCross, crossKey exCross (6/10) r ≤ crossKey exCross (6/10) w)) :=
  ⟨⟨List.cons_ne_nil _ _, List.cons_ne_nil _ _⟩,
    resolver_assignment exStats exCross (6/10)
      (List.cons_ne_nil _ _) (List.cons_ne_nil _ _)⟩

lemma exCross_total : crossTotal exCross = 100 := by
  norm_num [crossTotal, exCross]

lemma exCross_share1 :
    crossShare exCross ⟨"CatA", "SubA", "BrandA", 55⟩
      = (((55:ℚ)/100 : ℚ) : WithBot ℚ) := by
  rw [crossShare, exCross_total, if_neg (by norm_num)]

lemma exCross_share2 :
    crossShare exCross ⟨"CatB", "SubB", "BrandB", 45⟩
      = (((45:ℚ)/100 : ℚ) : WithBot ℚ) := by
  rw [crossShare, exCross_total, if_neg (by norm_num)]

lemma exCross_key1 :
    crossKey exCross (6/10) ⟨"CatA", "SubA", "BrandA", 55⟩ = toLex (0, 55) := by
  rw [crossKey, exCross_share1, if_neg]
  intro hc
  rw [WithBot.coe_le_coe] at hc
  norm_num at hc

lemma exCross_key2 :
    crossKey exCross (6/10) ⟨"CatB", "SubB", "BrandB", 45⟩ = toLex (0, 45) := by
  rw [crossKey, exCross_share2, if_neg]
  intro hc
  rw [WithBot.coe_le_coe] at hc
  norm_num at hc

lemma exCross_pick :
    crossPick exCross (6/10) = some ⟨"CatA", "SubA", "BrandA", 55⟩ := by
  have hfold : crossPick exCross (6/10)
      = if crossKey exCross (6/10) ⟨"CatA", "SubA", "BrandA", 55⟩ <
            crossKey exCross (6/10) ⟨"CatB", "SubB", "BrandB", 45⟩
        then some ⟨"CatB", "SubB", "BrandB", 45⟩
        else some ⟨"CatA", "SubA", "BrandA", 55⟩ := rfl
  rw [hfold, exCross_key1, exCross_key2, if_neg]
  intro hc
  rw [Prod.Lex.lt_iff] at hc
  norm_num at hc

lemma exCross_no_qualifier :
    ∀ r ∈ exCross, ¬ (((6/10 : ℚ) : WithBot ℚ) ≤ crossShare exCross r) := by
  intro r hr
  rw [exCross] at hr
  rcases List.mem_cons.mp hr with rfl | hr
  · rw [exCross_share1, WithBot.coe_le_coe]
    norm_num
  · rcases List.mem_cons.mp hr with rfl | hr
    · rw [exCross_share2, WithBot.coe_le_coe]
      norm_num
    · cases hr

/-- C2 counterexample: in cross-category mode, the customer spending 55/45
across two categories at threshold 0.60 has no share reaching the
threshold, yet `source_primary` assigns the concrete winning category
`CatA`, not the `MIXED` sentinel. -/
theorem cross_category_never_mixed :
    crossPrimaryCat exCross (6/10) = some "CatA"
    ∧ (∀ r ∈ exCross, ¬ (((6/10 : ℚ) : WithBot ℚ) ≤ crossShare exCross r))
    ∧ (some "CatA" : Option String) ≠ some "MIXED" := by
  refine ⟨?_, exCross_no_qualifier, by decide⟩
  rw [crossPrimaryCat, exCross_pick, Option.map_some']

lemma exStats_total : statTotal exStats = 100 := by
  norm_num [statTotal, exStats]

lemma exStats_share1 :
    statShare exStats ⟨"ItemA", "BrandA", "111", 55, 10⟩
      = (((55:ℚ)/100 : ℚ) : WithBot ℚ) := by
  rw [statShare, exStats_total, if_neg (by norm_num)]

lemma exStats_share2 :
    statShare exStats ⟨"ItemB", "BrandB", "222", 45, 11⟩
      = (((45:ℚ)/100 : ℚ) : WithBot ℚ) := by
  rw [statShare, exStats_total, if_neg (by norm_num)]

lemma exStats_key1 :
    statKey exStats (6/10) ⟨"ItemA", "BrandA", "111", 55, 10⟩
      = toLex (0, toLex ((((55:ℚ)/100 : ℚ) : WithBot ℚ), toLex (55, 10))) := by
  rw [statKey, statKey3, flagN, exStats_share1, if_neg]
  intro hc
  rw [WithBot.coe_le_coe] at hc
  norm_num at hc

lemma exStats_key2 :
    statKey exStats (6/10) ⟨"ItemB", "BrandB", "222", 45, 11⟩
      = toLex (0, toLex ((((45:ℚ)/100 : ℚ) : WithBot ℚ), toLex (45, 11))) := by
  rw [statKey, statKey3, flagN, exStats_share2, if_neg]
  intro hc
  rw [WithBot.coe_le_coe] at hc
  norm_num at hc

lemma exStats_pick :
    pickPrimary exStats (6/10) = some ⟨"ItemA", "BrandA", "111", 55, 10⟩ := by
  have hfold : pickPrimary exStats (6/10)
      = if statKey exStats (6/10) ⟨"ItemA", "BrandA", "111", 55, 10⟩ <
            statKey exStats (6/10) ⟨"ItemB", "BrandB", "222", 45, 11⟩
        then some ⟨"ItemB", "BrandB", "222", 45, 11⟩
        else some ⟨"ItemA", "BrandA", "111", 55, 10⟩ := rfl
  rw [hfold, exStats_key1, exStats_key2, if_neg]
  intro hc
  rw [Prod.Lex.lt_iff] at hc
  rcases hc with hc | ⟨_, hc⟩
  · exact absurd hc (by norm_num)
  · rw [Prod.Lex.lt_iff] at hc
    rcases hc with hc | ⟨hc, _⟩
    · rw [WithBot.coe_lt_coe] at hc
      norm_num at hc
    · rw [WithBot.coe_eq_coe] at hc
      norm_num at hc

lemma exStats_mixed : primaryItem exStats (6/10) = some "MIXED" := by
  rw [primaryItem, exStats_pick, Option.map_some', if_neg]
  rw [exStats_share1, WithBot.coe_le_coe]
  norm_num

lemma yearedTxs_customers (P : Periods) (txs : List Tx) :
    (yearedTxs P txs).map (fun p => p.2.customer)
      = (txs.filter fun r => decide ((yearOf P r.date).isSome = true)).map
          fun r => r.customer := by
  induction txs with
  | nil => rfl
  | cons t tl ih =>
    unfold yearedTxs at ih ⊢
    cases hy : yearOf P t.date with
    | none => simp [List.filterMap_cons, hy, List.filter_cons, ih]
    | some y => simp [List.filterMap_cons, hy, List.filter_cons, ih]

/-- C4: for every run of the pipeline, the sum of the `customers` column
over the classified flow table equals the number of distinct customers with
at least one qualifying transaction (a date falling in either period). -/
theorem flow_conservation (P : Periods) (txs : List Tx) (T : ℚ) :
    ((classifyTable (customer_flow P txs T)).map Prod.snd).sum
      = (((txs.filter fun r => decide ((yearOf P r.date).isSome = true)).map
          fun r => r.customer).dedup).length := by
  have h1 : ((classifyTable (customer_flow P txs T)).map Prod.snd).sum
      = (customer_flow P txs T).length := by
    unfold classifyTable
    rw [List.map_map]
    exact List.sum_map_count_dedup_eq_length _
  rw [h1]
  unfold customer_flow
  rw [List.length_map]
  unfold distinctCustomers
  rw [yearedTxs_customers]

theorem threshold_monotone_mixed_witness :
    (6/10 : ℚ) ≤ 7/10 ∧
    primaryItem exStats (6/10) = some "MIXED" ∧
    primaryItem exStats (7/10) = some "MIXED" :=
  ⟨by norm_num, exStats_mixed,
    threshold_monotone_mixed exStats (6/10) (7/10) (by norm_num) exStats_mixed⟩

theorem others_rewrite_amended_witness :
    ((["BrandX"] : List String) ≠ [] ∧ "OTHERS" ∉ ["BrandX"] ∧ "MIXED" ∉ ["BrandX"]) ∧
    ((∀ r ∈ dfScenario, r.prod_2024 ∉ ["BrandX"] → r.prod_2024 ≠ "NEW_TO_CATEGORY" →
        (rewrite2024 ["BrandX"] r).prod_2024 = "OTHERS")
      ∧ (dfScenario.map (rewriteRow ["BrandX"])).length = dfScenario.length
      ∧ (∀ r ∈ groupAgg (dfScenario.map (rewriteRow ["BrandX"])), r.prod_2024 = "OTHERS" →
          (r ∈ filter_dataframe_by_brands dfScenario ["BrandX"] "filtered"
            ↔ r.prod_2025 ∈ ["BrandX"]))
      ∧ (∀ r ∈ filter_dataframe_by_brands dfScenario ["BrandX"] "filtered",
          r.prod_2024 ≠ "MIXED")) :=
  ⟨⟨by decide, by decide, by decide⟩,
    others_rewrite_amended dfScenario ["BrandX"] (by decide) (by decide) (by decide)⟩

lemma roundHalfEven_nonneg (q : ℚ) (h : 0 ≤ q) : 0 ≤ roundHalfEven q := by
  have hf : (0 : ℤ) ≤ ⌊q⌋ := Int.le_floor.mpr (by exact_mod_cast h)
  unfold roundHalfEven
  split_ifs <;> omega

lemma roundHalfEven_le (q : ℚ) (M : ℤ) (h : q ≤ (M : ℚ)) : roundHalfEven q ≤ M := by
  have hfl : ⌊q⌋ ≤ M := by
    have := Int.floor_le_floor h
    rwa [Int.floor_intCast] at this
  have hfq : (⌊q⌋ : ℚ) ≤ q := Int.floor_le q
  unfold roundHalfEven
  split_ifs with h1 h2 h3
  · exact hfl
  · have hlt : (⌊q⌋ : ℚ) < M := by linarith
    have : ⌊q⌋ < M := by exact_mod_cast hlt
    omega
  · exact hfl
  · have h12 : (1 : ℚ)/2 ≤ q - ⌊q⌋ := le_of_not_lt h1
    have hlt : (⌊q⌋ : ℚ) < M := by linarith
    have : ⌊q⌋ < M := by exact_mod_cast hlt
    omega

lemma round1_bounds (q : ℚ) (h0 : 0 ≤ q) (h100 : q ≤ 100) :
    0 ≤ round1 q ∧ round1 q ≤ 100 := by
  have h1 : 0 ≤ roundHalfEven (q * 10) := roundHalfEven_nonneg _ (by linarith)
  have h2 : roundHalfEven (q * 10) ≤ 1000 := by
    apply roundHalfEven_le
    push_cast
    linarith
  unfold round1
  constructor
  · apply div_nonneg _ (by norm_num : (0:ℚ) ≤ 10)
    exact_mod_cast h1
  · rw [div_le_iff₀ (by norm_num : (0:ℚ) < 10)]
    have : (roundHalfEven (q * 10) : ℚ) ≤ 1000 := by exact_mod_cast h2
    linarith

lemma pct_bounds (num den : ℕ) (h : num ≤ den) :
    0 ≤ pct num den ∧ pct num den ≤ 100 := by
  unfold pct
  split_ifs with hd
  · apply round1_bounds
    · positivity
    · have hden : (0:ℚ) < den := by exact_mod_cast hd
      have hfrac : (num : ℚ)/den ≤ 1 :=
        div_le_one_of_le₀ (by exact_mod_cast h) (le_of_lt hden)
      calc (num : ℚ)/den * 100 ≤ 1 * 100 :=
            mul_le_mul_of_nonneg_right hfrac (by norm_num)
        _ = 100 := by norm_num
  · norm_num

lemma pct_zero_den (num : ℕ) : pct num 0 = 0 := by
  unfold pct
  norm_num

/-- C9: every percentage field of every produced `EntitySummary` row is in
`[0, 100]`; the outflow percentages are computed against `period1_total`,
the inflow-share percentages against `total_in`, and a zero denominator
yields `0` rather than an error. -/
theorem summary_percentages_bounded (df : List Row) (row : SummaryRow)
    (h : row ∈ calculate_brand_summary df) :
    (0 ≤ row.stayed_pct ∧ row.stayed_pct ≤ 100)
    ∧ (0 ≤ row.switch_out_pct ∧ row.switch_out_pct ≤ 100)
    ∧ (0 ≤ row.gone_pct ∧ row.gone_pct ≤ 100)
    ∧ (0 ≤ row.switch_in_pct ∧ row.switch_in_pct ≤ 100)
    ∧ (0 ≤ row.new_customer_pct ∧ row.new_customer_pct ≤ 100)
    ∧ row.stayed_pct = pct row.stayed row.period1_total
    ∧ row.switch_out_pct = pct row.switch_out row.period1_total
    ∧ row.gone_pct = pct row.gone row.period1_total
    ∧ row.switch_in_pct = pct row.switch_in row.total_in
    ∧ row.new_customer_pct = pct row.new_customer row.total_in
    ∧ (row.period1_total = 0 →
        row.stayed_pct = 0 ∧ row.switch_out_pct = 0 ∧ row.gone_pct = 0)
    ∧ (row.total_in = 0 → row.switch_in_pct = 0 ∧ row.new_customer_pct = 0) := by
  obtain ⟨b, _, hb⟩ := List.mem_map.mp h
  subst hb
  refine ⟨?_, ?_, ?_, ?_, ?_, rfl, rfl, rfl, rfl, rfl, ?_, ?_⟩
  · exact pct_bounds (stayedOf df b) (period1TotalOf df b)
      (by unfold period1TotalOf; omega)
  · exact pct_bounds (switchOutOf df b) (period1TotalOf df b)
      (by unfold period1TotalOf; omega)
  · exact pct_bounds (goneOf df b) (period1TotalOf df b)
      (by unfold period1TotalOf; omega)
  · exact pct_bounds (switchInOf df b) (totalInOf df b)
      (by unfold totalInOf; omega)
  · exact pct_bounds (newCustomerOf df b) (totalInOf df b)
      (by unfold totalInOf; omega)
  · intro h0
    have h0' : period1TotalOf df b = 0 := h0
    refine ⟨?_, ?_, ?_⟩
    · show pct (stayedOf df b) (period1TotalOf df b) = 0
      rw [h0']
      exact pct_zero_den _
    · show pct (switchOutOf df b) (period1TotalOf df b) = 0
      rw [h0']
      exact pct_zero_den _
    · show pct (goneOf df b) (period1TotalOf df b) = 0
      rw [h0']
      exact pct_zero_den _
  · intro h0
    have h0' : totalInOf df b = 0 := h0
    constructor
    · show pct (switchInOf df b) (totalInOf df b) = 0
      rw [h0']
      exact pct_zero_den _
    · show pct (newCustomerOf df b) (totalInOf df b) = 0
      rw [h0']
      exact pct_zero_den _

theorem summary_percentages_bounded_witness :
    summaryRowFor dfStayed "BrandA" ∈ calculate_brand_summary dfStayed ∧
    ((0 ≤ (summaryRowFor dfStayed "BrandA").stayed_pct ∧
        (summaryRowFor dfStayed "BrandA").stayed_pct ≤ 100)
    ∧ (0 ≤ (summaryRowFor dfStayed "BrandA").switch_out_pct ∧
        (summaryRowFor dfStayed "BrandA").switch_out_pct ≤ 100)
    ∧ (0 ≤ (summaryRowFor dfStayed "BrandA").gone_pct ∧
        (summaryRowFor dfStayed "BrandA").gone_pct ≤ 100)
    ∧ (0 ≤ (summaryRowFor dfStayed "BrandA").switch_in_pct ∧
        (summaryRowFor dfStayed "BrandA").switch_in_pct ≤ 100)
    ∧ (0 ≤ (summaryRowFor dfStayed "BrandA").new_customer_pct ∧
        (summaryRowFor dfStayed "BrandA").new_customer_pct ≤ 100)
    ∧ (summaryRowFor dfStayed "BrandA").stayed_pct
        = pct (summaryRowFor dfStayed "BrandA").stayed
            (summaryRowFor dfStayed "BrandA").period1_total
    ∧ (summaryRowFor dfStayed "BrandA").switch_out_pct
        = pct (summaryRowFor dfStayed "BrandA").switch_out
            (summaryRowFor dfStayed "BrandA").period1_total
    ∧ (summaryRowFor dfStayed "BrandA").gone_pct
        = pct (summaryRowFor dfStayed "BrandA").gone
            (summaryRowFor dfStayed "BrandA").period1_total
    ∧ (summaryRowFor dfStayed "BrandA").switch_in_pct
        = pct (summaryRowFor dfStayed "BrandA").switch_in
            (summaryRowFor dfStayed "BrandA").total_in
    ∧ (summaryRowFor dfStayed "BrandA").new_customer_pct
        = pct (summaryRowFor dfStayed "BrandA").new_customer
            (summaryRowFor dfStayed "BrandA").total_in
    ∧ ((summaryRowFor dfStayed "BrandA").period1_total = 0 →
        (summaryRowFor dfStayed "BrandA").stayed_pct = 0 ∧
        (summaryRowFor dfStayed "BrandA").switch_out_pct = 0 ∧
        (summaryRowFor dfStayed "BrandA").gone_pct = 0)
    ∧ ((summaryRowFor dfStayed "BrandA").total_in = 0 →
        (summaryRowFor dfStayed "BrandA").switch_in_pct = 0 ∧
        (summaryRowFor dfStayed "BrandA").new_customer_pct = 0)) :=
  ⟨List.mem_map_of_mem (summaryRowFor dfStayed) (by decide),
    summary_percentages_bounded dfStayed (summaryRowFor dfStayed "BrandA")
      (List.mem_map_of_mem (summaryRowFor dfStayed) (by decide))⟩

end EverSwitch
